import Mathlib

/-!
# Codehub webhook handling (`pkg/microservice/aslan/core/workflow/service/webhook/codehub.go`)

A shallow embedding of `ProcessCodehubHook`, `updateServiceTemplateByCodehubPushEvent`,
`GetCodehubServiceTemplates` and `SyncServiceTemplateFromCodehub`.

Conventions of the embedding.

* The mutable outside world (database, provider, configuration, clock) is a type `W`
  that every collaborator reads and transforms; the functions of the file thread it
  explicitly.
* Every function returns, next to its Go result, the list of collaborator calls it made
  (`Call`), in the order it made them.
* Go passes `*commonmodels.Service` by pointer and mutates it in place; the embedding
  returns the mutated copy.
* A Go panic (nil dereference) is the result `none`.
* Go strings are compared and searched as sequences of characters.
-/

namespace Codehub

/-! ## Data model -/

/-- The `*commonmodels.Commit` watermark of a service template. -/
structure Commit where
  SHA : String
  Message : String
deriving DecidableEq, Repr

/-- The fields of `commonmodels.Service` that the webhook code reads or writes. -/
structure Service where
  ServiceName : String
  Source : String
  SrcPath : String
  CreateBy : String
  Revision : Int
  Commit : Option Commit
deriving DecidableEq, Repr

/-- Author of a pushed commit. -/
structure Author where
  Name : String
  Email : String
deriving DecidableEq, Repr

/-- One entry of `codehub.PushEvent.Commits`. -/
structure HookCommit where
  Author : Author
  Added : List String
  Modified : List String
  Removed : List String
deriving DecidableEq, Repr

/-- The `*codehub.PushEvent` payload. -/
structure PushEvent where
  Commits : List HookCommit
deriving DecidableEq, Repr

/-- The dynamic value `codehub.ParseHook` returns: a push event, or an event of another
recognised kind (the type switch of `ProcessCodehubHook` has a single case). -/
inductive Event where
  | push (event : PushEvent)
  | other (kind : String)
deriving DecidableEq, Repr

/-- The record `commonmodels.WebHookUser`. -/
structure WebHookUser where
  Domain : String
  UserName : String
  Email : String
  Source : String
  CreatedAt : Int
deriving DecidableEq, Repr

/-- The argument `commonrepo.ServiceListOption` of `ListMaxRevisions`. -/
structure ServiceListOption where
  Type_ : String
  Source : String
deriving DecidableEq, Repr

/-- The raw request body, a byte sequence. -/
abbrev Payload := List Nat

/-- The part of `*http.Request` that is read: `Header` is `req.Header.Get`, which yields
the empty string for an absent header. -/
structure Request where
  Header : String → String

/-! ## Errors -/

/-- A Go `error` value that is not a `*multierror.Error`. `errorString` is what
`errors.New` and `fmt.Errorf` build (and stands for any collaborator error, identified by
its text); `ErrValidateTemplate` is `e.ErrValidateTemplate.AddDesc desc`. -/
inductive Err where
  | errorString (msg : String)
  | ErrValidateTemplate (desc : String)
deriving DecidableEq, Repr

/-- A non-nil value of the interface `error`: a plain error, or a `*multierror.Error`
whose `Errors` are `e :: es` (as `ErrorOrNil` returns it, with at least one entry). -/
inductive GoError where
  | plain (e : Err)
  | multi (e : Err) (es : List Err)
deriving DecidableEq, Repr

/-- The `Errors` slice of a `*multierror.Error` accumulator; `&multierror.Error{}` is
the empty list. -/
abbrev MultiError := List Err

namespace multierror

/-- The function `multierror.Append acc err` for a non-nil `err`: a `*multierror.Error`
argument is flattened into the accumulator, any other error is appended as one entry. -/
def Append (acc : MultiError) (err : GoError) : MultiError :=
  match err with
  | .plain e => acc ++ [e]
  | .multi e es => acc ++ e :: es

/-- The method `(*multierror.Error).ErrorOrNil`: nil when no error was appended. -/
def ErrorOrNil (acc : MultiError) : Option GoError :=
  match acc with
  | [] => none
  | e :: es => some (.multi e es)

end multierror

/-- The entries a possibly-nil `error` contributes when it is appended to an
accumulator: none for nil, itself for a plain error, its `Errors` for a composite. -/
def entries : Option GoError → List Err
  | none => []
  | some (.plain e) => [e]
  | some (.multi e es) => e :: es

/-! ## `strings` -/

namespace strings

/-- The function `strings.HasPrefix` on character sequences. -/
def hasPrefixChars : List Char → List Char → Bool
  | _, [] => true
  | [], _ :: _ => false
  | c :: s, d :: p => c == d && hasPrefixChars s p

/-- Search of `substr` at every offset of `s`, left to right. -/
def containsChars : List Char → List Char → Bool
  | [], substr => hasPrefixChars [] substr
  | c :: s, substr => hasPrefixChars (c :: s) substr || containsChars s substr

/-- The function `strings.Contains s substr`: whether `substr` occurs within `s`. -/
def Contains (s substr : String) : Bool :=
  containsChars s.data substr.data

end strings

/-! ## Collaborators -/

/-- Modelled from the spec: the error kinds of `codehub.ParseHook`, which is not among
the sources. Section 4.1 distinguishes an event type outside the recognised set from a
payload of a recognised type that fails to parse. -/
inductive ParseHookError where
  | unrecognizedEventType (eventType : String)
  | malformedPayload (eventType : String) (detail : String)
deriving DecidableEq, Repr

/-- An entry of the call log of a run: a call of a collaborator with effects, or the
entry into `SyncServiceTemplateFromCodehub` (a sync attempt). Reads without effect
(`GetHookSecret`, `HookEventType`, `GetOwnerRepoBranchPath`, the clock) are not logged. -/
inductive Call where
  | ParseHook (eventType : String) (payload : Payload)
  | Upsert (user : WebHookUser)
  | ListMaxRevisions (opt : ServiceListOption)
  | SyncServiceTemplateFromCodehub (service : Service)
  | LatestCommit (srcPath : String)
  | fillServiceTmpl (userName : String) (service : Service)
  | TriggerWorkflowByCodehubEvent (event : Event) (baseURI : String) (requestID : String)
deriving DecidableEq, Repr

/-- The constants and functions `codehub.go` uses but does not define, as parameters.

* `SourceFromCodeHub`, `K8SDeployType`, `WebhookTaskCreator`: constants of package `setting`.
* `GetHookSecret`: `gitservice.GetHookSecret()`.
* `HookEventType`, `ParseHook`: package `codehub`.
* `Now`: `time.Now().Unix()`.
* `Upsert`: `commonrepo.NewWebHookUserColl().Upsert`, whose result is dropped.
* `ListMaxRevisions`: `commonrepo.NewServiceColl().ListMaxRevisions`.
* `GetOwnerRepoBranchPath`: of its seven results the caller keeps the fifth (the tracked
  sub-path) and the error; both are returned, as in Go.
* `LatestCommit`: the provider query behind `syncCodehubLatestCommit`.
* `fillServiceTmpl`: returns the template as it left it, and the `Error()` text of its
  error, which is all the caller uses.
* `TriggerWorkflowByCodehubEvent`: the workflow trigger.

The per-template collaborators (`GetOwnerRepoBranchPath`, `LatestCommit`) fail with a plain
error; the listing and the trigger may fail with any `error`, a composite included. -/
structure Env (W : Type) where
  SourceFromCodeHub : String
  K8SDeployType : String
  WebhookTaskCreator : String
  GetHookSecret : W → String
  HookEventType : Request → String
  ParseHook : String → Payload → Except ParseHookError Event
  Now : W → Int
  Upsert : WebHookUser → W → W
  ListMaxRevisions : ServiceListOption → W → Except GoError (List Service) × W
  GetOwnerRepoBranchPath : String → String × Option Err
  LatestCommit : String → W → Except Err Commit × W
  fillServiceTmpl : String → Service → W → (Service × Option String) × W
  TriggerWorkflowByCodehubEvent : Event → String → String → W → Option GoError × W

/-- What a call of `SyncServiceTemplateFromCodehub` leaves behind: the template as
mutated, the returned error, the world and the calls made. -/
structure SyncResult (W : Type) where
  service : Service
  err : Option Err
  world : W
  calls : List Call

/-- What `updateServiceTemplateByCodehubPushEvent` and `ProcessCodehubHook` leave behind. -/
structure HookResult (W : Type) where
  err : Option GoError
  world : W
  calls : List Call

variable {W : Type}

/-- Modelled from the spec: `syncCodehubLatestCommit` is not among the sources. By
section 4.3 step 2 and section 6 (`ProviderClient.LatestCommit(sourceLocation) ->
(CommitIdentity, error)`) it queries the provider for the latest commit identity at the
template's source location and stores it in the in-memory template's `Commit`; when the
query fails the template is left as it was and the error is returned. -/
def syncCodehubLatestCommit (env : Env W) (service : Service) (w : W) :
    (Service × Option Err) × W :=
  match env.LatestCommit service.SrcPath w with
  | (.error err, w1) => ((service, some err), w1)
  | (.ok commit, w1) => (({ service with Commit := some commit }, none), w1)

/-! ## The functions of `codehub.go` -/

/-- The function `SyncServiceTemplateFromCodehub` (lines 143-174). -/
def SyncServiceTemplateFromCodehub (env : Env W) (service : Service) (w : W) :
    Option (SyncResult W) :=
  let entry := Call.SyncServiceTemplateFromCodehub service
  if service.Source ≠ env.SourceFromCodeHub then
    some ⟨service, some (.errorString "service template is not from codehub"), w, [entry]⟩
  else
    let before : String :=
      match service.Commit with
      | some c => c.SHA
      | none => ""
    match syncCodehubLatestCommit env service w with
    | ((service1, some err), w1) =>
      some ⟨service1, some err, w1, [entry, .LatestCommit service.SrcPath]⟩
    | ((service1, none), w1) =>
      match service1.Commit with
      | none => none
      | some c =>
        let after := c.SHA
        if before = after then
          some ⟨service1, none, w1, [entry, .LatestCommit service.SrcPath]⟩
        else
          match env.fillServiceTmpl env.WebhookTaskCreator service1 w1 with
          | ((service2, some msg), w2) =>
            some ⟨service2, some (.ErrValidateTemplate msg), w2,
              [entry, .LatestCommit service.SrcPath,
               .fillServiceTmpl env.WebhookTaskCreator service1]⟩
          | ((service2, none), w2) =>
            some ⟨service2, none, w2,
              [entry, .LatestCommit service.SrcPath,
               .fillServiceTmpl env.WebhookTaskCreator service1]⟩

/-- The function `GetCodehubServiceTemplates` (lines 133-139). -/
def GetCodehubServiceTemplates (env : Env W) (w : W) :
    Except GoError (List Service) × W × List Call :=
  let opt : ServiceListOption := { Type_ := env.K8SDeployType, Source := env.SourceFromCodeHub }
  match env.ListMaxRevisions opt w with
  | (r, w1) => (r, w1, [.ListMaxRevisions opt])

/-- The changed-file list of lines 102-107: for each commit in order its added, then
modified, then removed paths. -/
def fileNames (event : PushEvent) : List String :=
  event.Commits.foldl (fun acc commit => ((acc ++ commit.Added) ++ commit.Modified) ++ commit.Removed) []

/-- The scan of lines 101, 109-114: whether some changed file contains `path`. -/
def affected (names : List String) (path : String) : Bool :=
  match names with
  | [] => false
  | fileName :: rest => if strings.Contains fileName path then true else affected rest path

/-- The loop body and loop of lines 94-129 over the remaining templates, with the
accumulator `errs`. -/
def updateLoop (env : Env W) (event : PushEvent) :
    List Service → MultiError → W → Option (MultiError × W × List Call)
  | [], errs, w => some (errs, w, [])
  | service :: rest, errs, w =>
    let srcPath := service.SrcPath
    let (path, perr) := env.GetOwnerRepoBranchPath srcPath
    let errs1 : MultiError :=
      match perr with
      | some err => multierror.Append errs (.plain err)
      | none => errs
    if affected (fileNames event) path then
      let service1 := { service with CreateBy := "system" }
      match SyncServiceTemplateFromCodehub env service1 w with
      | none => none
      | some r =>
        let errs2 : MultiError :=
          match r.err with
          | some err => multierror.Append errs1 (.plain err)
          | none => errs1
        match updateLoop env event rest errs2 r.world with
        | none => none
        | some (errs3, w3, calls3) => some (errs3, w3, r.calls ++ calls3)
    else
      updateLoop env event rest errs1 w

/-- The function `updateServiceTemplateByCodehubPushEvent` (lines 85-131). -/
def updateServiceTemplateByCodehubPushEvent (env : Env W) (event : PushEvent) (w : W) :
    Option (HookResult W) :=
  match GetCodehubServiceTemplates env w with
  | (.error err, w1, calls1) => some ⟨some err, w1, calls1⟩
  | (.ok serviceTmpls, w1, calls1) =>
    match updateLoop env event serviceTmpls [] w1 with
    | none => none
    | some (errs, w2, calls2) => some ⟨multierror.ErrorOrNil errs, w2, calls1 ++ calls2⟩

/-- Lines 61-70 of `ProcessCodehubHook`: the webhook user is upserted when the push
carries at least one commit. -/
def upsertWebhookUser (env : Env W) (req : Request) (pushEvent : PushEvent) (w : W) :
    W × List Call :=
  match pushEvent.Commits with
  | [] => (w, [])
  | first :: _ =>
    let webhookUser : WebHookUser :=
      { Domain := req.Header "X-Forwarded-Host"
        UserName := first.Author.Name
        Email := first.Author.Email
        Source := env.SourceFromCodeHub
        CreatedAt := env.Now w }
    (env.Upsert webhookUser w, [.Upsert webhookUser])

/-- The type switch of lines 58-75 of `ProcessCodehubHook`, started with the empty
`errorList`. -/
def processEvent (env : Env W) (req : Request) (event : Event) (w : W) :
    Option (MultiError × W × List Call) :=
  let errorList : MultiError := []
  match event with
  | .push pushEvent =>
    match upsertWebhookUser env req pushEvent w with
    | (w1, calls1) =>
      match updateServiceTemplateByCodehubPushEvent env pushEvent w1 with
      | none => none
      | some r =>
        match r.err with
        | some err => some (multierror.Append errorList err, r.world, calls1 ++ r.calls)
        | none => some (errorList, r.world, calls1 ++ r.calls)
  | .other _ => some (errorList, w, [])

/-- The function `ProcessCodehubHook` (lines 37-83). -/
def ProcessCodehubHook (env : Env W) (payload : Payload) (req : Request)
    (requestID : String) (w : W) : Option (HookResult W) :=
  let token := req.Header "X-Codehub-Token"
  let secret := env.GetHookSecret w
  if secret ≠ "" ∧ token ≠ secret then
    some ⟨some (.plain (.errorString "token is illegal")), w, []⟩
  else
    let eventType := env.HookEventType req
    match env.ParseHook eventType payload with
    | .error _ => some ⟨none, w, [.ParseHook eventType payload]⟩
    | .ok event =>
      let forwardedProto := req.Header "X-Forwarded-Proto"
      let forwardedHost := req.Header "X-Forwarded-Host"
      let baseURI := forwardedProto ++ "://" ++ forwardedHost
      match processEvent env req event w with
      | none => none
      | some (errorList, w1, calls1) =>
        match env.TriggerWorkflowByCodehubEvent event baseURI requestID w1 with
        | (terr, w2) =>
          let errorList1 : MultiError :=
            match terr with
            | some err => multierror.Append errorList err
            | none => errorList
          some ⟨multierror.ErrorOrNil errorList1, w2,
            (Call.ParseHook eventType payload :: calls1) ++
              [.TriggerWorkflowByCodehubEvent event baseURI requestID]⟩

/-! ## Reference definitions used to state the properties -/

/-- The changed-file list as the specification words it: the commits in order, each
contributing its added, then modified, then removed paths. -/
def flattenedChanges (event : PushEvent) : List String :=
  event.Commits.flatMap (fun commit => commit.Added ++ commit.Modified ++ commit.Removed)

/-- The templates passed to `SyncServiceTemplateFromCodehub` in a call log, in order. -/
def syncCalls : List Call → List Service
  | [] => []
  | .SyncServiceTemplateFromCodehub service :: rest => service :: syncCalls rest
  | _ :: rest => syncCalls rest

/-- Whether a call log contains a call of `fillServiceTmpl`. -/
def callsFill : List Call → Bool
  | [] => false
  | .fillServiceTmpl _ _ :: _ => true
  | _ :: rest => callsFill rest

/-- The template as the loop hands it to the sync (line 119). -/
def asSystem (service : Service) : Service :=
  { service with CreateBy := "system" }

/-- The tracked sub-path derived from a template's stored source location. -/
def trackedPath (env : Env W) (service : Service) : String :=
  (env.GetOwnerRepoBranchPath service.SrcPath).1

/-- The templates of a list that a push event affects, in template order. -/
def affectedTemplates (env : Env W) (event : PushEvent) (serviceTmpls : List Service) :
    List Service :=
  serviceTmpls.filter (fun service => affected (fileNames event) (trackedPath env service))

/-- The syncs of a list of templates run one after the other, each in the world the
previous one left; the results in order. -/
def syncEach (env : Env W) : List Service → W → Option (List (SyncResult W))
  | [], _ => some []
  | service :: rest, w =>
    match SyncServiceTemplateFromCodehub env service w with
    | none => none
    | some r =>
      match syncEach env rest r.world with
      | none => none
      | some rs => some (r :: rs)

/-- The errors of the failed syncs among a list of results, in order. -/
def failures (rs : List (SyncResult W)) : List Err :=
  rs.filterMap (fun r => r.err)

/-- The world a sequence of syncs ends in, started from `w`. -/
def lastWorld (w : W) : List (SyncResult W) → W
  | [] => w
  | r :: rs => lastWorld r.world rs

/-! ## A concrete instance

A small world in which the properties below are exercised: the world is the number of
writes made so far to the stores. -/

/-- The stored source location of the demo template tracking `sub`. -/
def demoSrcPath (sub : String) : String :=
  "codehub.example.com/acme/shop/tree/main/" ++ sub

/-- A demo template tracking the sub-path `sub`, last synced at commit `sha`. -/
def demoService (name sub sha : String) : Service :=
  { ServiceName := name
    Source := "codehub"
    SrcPath := demoSrcPath sub
    CreateBy := "alice"
    Revision := 3
    Commit := some { SHA := sha, Message := "initial import" } }

/-- A demo template whose stored source location is malformed. -/
def demoMalformed : Service :=
  { ServiceName := "orphan"
    Source := "codehub"
    SrcPath := "not-a-location"
    CreateBy := "alice"
    Revision := 1
    Commit := none }

/-- A demo template imported from another provider. -/
def demoGitlab : Service :=
  { demoService "service-g" "service-g" "0000" with Source := "gitlab" }

/-- The demo environment: `parsed` is what `ParseHook` yields, `serviceTmpls` what the
store lists, `trigger` what the workflow trigger returns. The source location parser
knows the three demo services; the provider reports commit `9f2c` everywhere except at
`service-b` and at the malformed location, where the query fails. -/
def demoEnv (parsed : Except ParseHookError Event) (serviceTmpls : List Service)
    (trigger : Option GoError) : Env Nat :=
  { SourceFromCodeHub := "codehub"
    K8SDeployType := "k8s"
    WebhookTaskCreator := "webhook"
    GetHookSecret := fun _ => "s3cret"
    HookEventType := fun req => req.Header "X-Codehub-Event"
    ParseHook := fun _ _ => parsed
    Now := fun w => 1700000000 + w
    Upsert := fun _ w => w + 1
    ListMaxRevisions := fun _ w => (.ok serviceTmpls, w)
    GetOwnerRepoBranchPath := fun srcPath =>
      if srcPath = demoSrcPath "service-a" then ("service-a", none)
      else if srcPath = demoSrcPath "service-b" then ("service-b", none)
      else if srcPath = demoSrcPath "service-c" then ("service-c", none)
      else if srcPath = demoSrcPath "" then ("", none)
      else ("", some (.errorString "url is illegal"))
    LatestCommit := fun srcPath w =>
      if srcPath = demoSrcPath "service-b" ∨ srcPath = "not-a-location" then
        (.error (.errorString "codehub: latest commit unavailable"), w)
      else (.ok { SHA := "9f2c", Message := "update manifests" }, w)
    fillServiceTmpl := fun _ service w =>
      (({ service with Revision := service.Revision + 1 }, none), w + 1)
    TriggerWorkflowByCodehubEvent := fun _ _ _ w => (trigger, w) }

/-- The demo environment with the secret check switched off (empty configured secret). -/
def demoOpenEnv (parsed : Except ParseHookError Event) (serviceTmpls : List Service)
    (trigger : Option GoError) : Env Nat :=
  { demoEnv parsed serviceTmpls trigger with GetHookSecret := fun _ => "" }

/-- A demo request carrying `token` in `X-Codehub-Token`. -/
def demoRequest (token : String) : Request :=
  { Header := fun key =>
      if key = "X-Codehub-Token" then token
      else if key = "X-Codehub-Event" then "Push Hook"
      else if key = "X-Forwarded-Proto" then "https"
      else if key = "X-Forwarded-Host" then "zadig.example.com"
      else "" }

/-- A demo push of one commit by `bob` that modifies the given files. -/
def demoPush (modified : List String) : PushEvent :=
  { Commits := [{ Author := { Name := "bob", Email := "bob@example.com" }
                  Added := []
                  Modified := modified
                  Removed := [] }] }

/-- The three demo templates `service-a`, `service-b`, `service-c`, all behind the
provider's head. -/
def demoTemplates : List Service :=
  [demoService "service-a" "service-a" "1a1a",
   demoService "service-b" "service-b" "1a1a",
   demoService "service-c" "service-c" "1a1a"]

/-! ## Properties of the string search -/

theorem strings.hasPrefixChars_iff (s p : List Char) :
    strings.hasPrefixChars s p = true ↔ p <+: s := by
  induction s generalizing p with
  | nil =>
    cases p with
    | nil => simp [strings.hasPrefixChars]
    | cons d p => simp [strings.hasPrefixChars]
  | cons c s ih =>
    cases p with
    | nil => simp [strings.hasPrefixChars]
    | cons d p =>
      simp only [strings.hasPrefixChars, Bool.and_eq_true, beq_iff_eq, ih,
        List.cons_prefix_cons]
      constructor
      · rintro ⟨h1, h2⟩
        exact ⟨h1.symm, h2⟩
      · rintro ⟨h1, h2⟩
        exact ⟨h1.symm, h2⟩

theorem strings.containsChars_iff (s substr : List Char) :
    strings.containsChars s substr = true ↔ substr <:+: s := by
  induction s with
  | nil =>
    simp only [strings.containsChars, strings.hasPrefixChars_iff, List.prefix_nil,
      List.infix_nil]
  | cons c s ih =>
    simp only [strings.containsChars, Bool.or_eq_true, strings.hasPrefixChars_iff, ih,
      List.infix_cons_iff]

theorem strings.Contains_iff (s substr : String) :
    strings.Contains s substr = true ↔ substr.data <:+: s.data := by
  simp only [strings.Contains, strings.containsChars_iff]

theorem strings.Contains_empty (s : String) : strings.Contains s "" = true := by
  rw [strings.Contains_iff]
  exact List.nil_infix

/-! ## Properties of the impact scan -/

theorem affected_iff (names : List String) (path : String) :
    affected names path = true ↔ ∃ fileName ∈ names, path.data <:+: fileName.data := by
  induction names with
  | nil => simp [affected]
  | cons fileName rest ih =>
    by_cases h : strings.Contains fileName path = true
    · simp only [affected, h, if_true, true_iff]
      exact ⟨fileName, List.mem_cons_self _ _, (strings.Contains_iff _ _).1 h⟩
    · have hn : ¬ path.data <:+: fileName.data := fun hc => h ((strings.Contains_iff _ _).2 hc)
      simp only [affected, h, List.mem_cons, exists_eq_or_imp, hn, false_or]
      simpa using ih

theorem fileNames_foldl (commits : List HookCommit) (acc : List String) :
    commits.foldl
        (fun acc commit => ((acc ++ commit.Added) ++ commit.Modified) ++ commit.Removed) acc
      = acc ++ commits.flatMap
          (fun commit => commit.Added ++ commit.Modified ++ commit.Removed) := by
  induction commits generalizing acc with
  | nil => simp
  | cons commit rest ih =>
    rw [List.foldl_cons, ih, List.flatMap_cons]
    simp only [List.append_assoc]

theorem fileNames_eq_flattenedChanges (event : PushEvent) :
    fileNames event = flattenedChanges event := by
  simp only [fileNames, flattenedChanges, fileNames_foldl, List.nil_append]

/-! ## Properties of `SyncServiceTemplateFromCodehub` -/

theorem sync_wrongSource (env : Env W) (service : Service) (w : W)
    (hsrc : service.Source ≠ env.SourceFromCodeHub) :
    SyncServiceTemplateFromCodehub env service w =
      some ⟨service, some (.errorString "service template is not from codehub"), w,
        [.SyncServiceTemplateFromCodehub service]⟩ := by
  simp only [SyncServiceTemplateFromCodehub, ne_eq, hsrc, not_false_eq_true, if_true]

theorem sync_queryError (env : Env W) (service : Service) (w w1 : W) (err : Err)
    (hsrc : service.Source = env.SourceFromCodeHub)
    (hq : env.LatestCommit service.SrcPath w = (.error err, w1)) :
    SyncServiceTemplateFromCodehub env service w =
      some ⟨service, some err, w1,
        [.SyncServiceTemplateFromCodehub service, .LatestCommit service.SrcPath]⟩ := by
  simp only [SyncServiceTemplateFromCodehub]
  rw [if_neg (not_not.mpr hsrc)]
  simp only [syncCodehubLatestCommit, hq]

theorem sync_unchanged (env : Env W) (service : Service) (w w1 : W) (old commit : Commit)
    (hsrc : service.Source = env.SourceFromCodeHub)
    (hold : service.Commit = some old)
    (hq : env.LatestCommit service.SrcPath w = (.ok commit, w1))
    (hsha : old.SHA = commit.SHA) :
    SyncServiceTemplateFromCodehub env service w =
      some ⟨{ service with Commit := some commit }, none, w1,
        [.SyncServiceTemplateFromCodehub service, .LatestCommit service.SrcPath]⟩ := by
  simp only [SyncServiceTemplateFromCodehub]
  rw [if_neg (not_not.mpr hsrc)]
  simp only [syncCodehubLatestCommit, hq, hold, hsha, if_true]

theorem sync_total (env : Env W) (service : Service) (w : W) :
    ∃ r, SyncServiceTemplateFromCodehub env service w = some r ∧
      syncCalls r.calls = [service] := by
  by_cases hsrc : service.Source = env.SourceFromCodeHub
  · cases hq : env.LatestCommit service.SrcPath w with
    | mk res w1 =>
      cases res with
      | error err =>
        exact ⟨_, sync_queryError env service w w1 err hsrc hq, by simp [syncCalls]⟩
      | ok commit =>
        simp only [SyncServiceTemplateFromCodehub]
        rw [if_neg (not_not.mpr hsrc)]
        simp only [syncCodehubLatestCommit, hq]
        split
        · exact ⟨_, rfl, by simp [syncCalls]⟩
        · cases hf : env.fillServiceTmpl env.WebhookTaskCreator
              { service with Commit := some commit } w1 with
          | mk res2 w2 =>
            cases res2 with
            | mk service2 ferr =>
              cases ferr with
              | none => exact ⟨_, rfl, by simp [syncCalls]⟩
              | some msg => exact ⟨_, rfl, by simp [syncCalls]⟩
  · exact ⟨_, sync_wrongSource env service w hsrc, by simp [syncCalls]⟩

theorem sync_service_after (env : Env W) (service : Service) (w w1 : W) (commit : Commit)
    (r : SyncResult W)
    (hfill : ∀ userName s x,
      ((env.fillServiceTmpl userName s x).1.1).Source = s.Source ∧
      ((env.fillServiceTmpl userName s x).1.1).Commit = s.Commit)
    (hsrc : service.Source = env.SourceFromCodeHub)
    (hq : env.LatestCommit service.SrcPath w = (.ok commit, w1))
    (hr : SyncServiceTemplateFromCodehub env service w = some r) :
    r.service.Source = env.SourceFromCodeHub ∧ r.service.Commit = some commit := by
  simp only [SyncServiceTemplateFromCodehub] at hr
  rw [if_neg (not_not.mpr hsrc)] at hr
  simp only [syncCodehubLatestCommit, hq] at hr
  split at hr
  · cases hr
    exact ⟨hsrc, rfl⟩
  · have h := hfill env.WebhookTaskCreator { service with Commit := some commit } w1
    cases hf : env.fillServiceTmpl env.WebhookTaskCreator
        { service with Commit := some commit } w1 with
    | mk res2 w2 =>
      cases res2 with
      | mk service2 ferr =>
        rw [hf] at hr h
        simp only at h
        cases ferr with
        | none =>
          cases hr
          exact ⟨h.1.trans hsrc, h.2⟩
        | some msg =>
          cases hr
          exact ⟨h.1.trans hsrc, h.2⟩

/-! ## Properties of the batch loop -/

theorem syncCalls_append (a b : List Call) :
    syncCalls (a ++ b) = syncCalls a ++ syncCalls b := by
  induction a with
  | nil => rfl
  | cons c a ih => cases c <;> simp [syncCalls, ih]

theorem affectedTemplates_cons_pos (env : Env W) (event : PushEvent) (service : Service)
    (rest : List Service)
    (h : affected (fileNames event) (trackedPath env service) = true) :
    affectedTemplates env event (service :: rest) =
      service :: affectedTemplates env event rest := by
  simp only [affectedTemplates, List.filter_cons, h, if_true]

theorem affectedTemplates_cons_neg (env : Env W) (event : PushEvent) (service : Service)
    (rest : List Service)
    (h : ¬ affected (fileNames event) (trackedPath env service) = true) :
    affectedTemplates env event (service :: rest) = affectedTemplates env event rest := by
  simp only [affectedTemplates, List.filter_cons, h]
  simp

theorem updateLoop_spec (env : Env W) (event : PushEvent) (serviceTmpls : List Service) :
    ∀ (errs : MultiError) (w : W),
    ∃ rs errs1 calls,
      syncEach env ((affectedTemplates env event serviceTmpls).map asSystem) w = some rs ∧
      rs.length = (affectedTemplates env event serviceTmpls).length ∧
      updateLoop env event serviceTmpls errs w = some (errs1, lastWorld w rs, calls) ∧
      syncCalls calls = (affectedTemplates env event serviceTmpls).map asSystem ∧
      ((∀ service ∈ serviceTmpls, (env.GetOwnerRepoBranchPath service.SrcPath).2 = none) →
        errs1 = errs ++ failures rs) := by
  induction serviceTmpls with
  | nil =>
    intro errs w
    exact ⟨[], errs, [], rfl, rfl, rfl, rfl, fun _ => by simp [failures]⟩
  | cons service rest ih =>
    intro errs w
    cases hg : env.GetOwnerRepoBranchPath service.SrcPath with
    | mk path perr =>
      have hpath : trackedPath env service = path := by simp only [trackedPath, hg]
      by_cases haff : affected (fileNames event) path = true
      · rw [affectedTemplates_cons_pos env event service rest (hpath ▸ haff)]
        obtain ⟨r, hr, hrc⟩ := sync_total env (asSystem service) w
        have hr1 : SyncServiceTemplateFromCodehub env { service with CreateBy := "system" } w
            = some r := hr
        cases hre : r.err with
        | none =>
          cases perr with
          | none =>
            obtain ⟨rs, errs1, calls, h1, h2, h3, h4, h5⟩ := ih errs r.world
            refine ⟨r :: rs, errs1, r.calls ++ calls, ?_, ?_, ?_, ?_, ?_⟩
            · simp only [List.map_cons, syncEach, hr, h1]
            · simp only [List.length_cons, h2]
            · simp only [updateLoop, hg, haff, if_true, hr1, hre, h3, lastWorld]
            · simp only [syncCalls_append, hrc, h4, List.map_cons, List.singleton_append]
            · intro hall
              rw [h5 (fun s hs => hall s (List.mem_cons_of_mem _ hs))]
              simp only [failures, List.filterMap_cons, hre]
          | some perr1 =>
            obtain ⟨rs, errs1, calls, h1, h2, h3, h4, _⟩ := ih (errs ++ [perr1]) r.world
            refine ⟨r :: rs, errs1, r.calls ++ calls, ?_, ?_, ?_, ?_, ?_⟩
            · simp only [List.map_cons, syncEach, hr, h1]
            · simp only [List.length_cons, h2]
            · simp only [updateLoop, hg, haff, if_true, hr1, hre, multierror.Append, h3,
                lastWorld]
            · simp only [syncCalls_append, hrc, h4, List.map_cons, List.singleton_append]
            · intro hall
              have := hall service (List.mem_cons_self _ _)
              rw [hg] at this
              cases this
        | some serr =>
          cases perr with
          | none =>
            obtain ⟨rs, errs1, calls, h1, h2, h3, h4, h5⟩ := ih (errs ++ [serr]) r.world
            refine ⟨r :: rs, errs1, r.calls ++ calls, ?_, ?_, ?_, ?_, ?_⟩
            · simp only [List.map_cons, syncEach, hr, h1]
            · simp only [List.length_cons, h2]
            · simp only [updateLoop, hg, haff, if_true, hr1, hre, multierror.Append, h3,
                lastWorld]
            · simp only [syncCalls_append, hrc, h4, List.map_cons, List.singleton_append]
            · intro hall
              rw [h5 (fun s hs => hall s (List.mem_cons_of_mem _ hs))]
              simp only [failures, List.filterMap_cons, hre, List.append_assoc,
                List.singleton_append]
          | some perr1 =>
            obtain ⟨rs, errs1, calls, h1, h2, h3, h4, _⟩ :=
              ih ((errs ++ [perr1]) ++ [serr]) r.world
            refine ⟨r :: rs, errs1, r.calls ++ calls, ?_, ?_, ?_, ?_, ?_⟩
            · simp only [List.map_cons, syncEach, hr, h1]
            · simp only [List.length_cons, h2]
            · simp only [updateLoop, hg, haff, if_true, hr1, hre, multierror.Append, h3,
                lastWorld]
            · simp only [syncCalls_append, hrc, h4, List.map_cons, List.singleton_append]
            · intro hall
              have := hall service (List.mem_cons_self _ _)
              rw [hg] at this
              cases this
      · rw [affectedTemplates_cons_neg env event service rest (hpath ▸ haff)]
        cases perr with
        | none =>
          obtain ⟨rs, errs1, calls, h1, h2, h3, h4, h5⟩ := ih errs w
          refine ⟨rs, errs1, calls, h1, h2, ?_, h4, ?_⟩
          · simp only [updateLoop, hg, haff, h3]
            simp
          · intro hall
            exact h5 (fun s hs => hall s (List.mem_cons_of_mem _ hs))
        | some perr1 =>
          obtain ⟨rs, errs1, calls, h1, h2, h3, h4, _⟩ := ih (errs ++ [perr1]) w
          refine ⟨rs, errs1, calls, h1, h2, ?_, h4, ?_⟩
          · simp only [updateLoop, hg, haff, multierror.Append, h3]
            simp
          · intro hall
            have := hall service (List.mem_cons_self _ _)
            rw [hg] at this
            cases this

theorem updateLoop_no_changes (env : Env W) (event : PushEvent)
    (hnone : fileNames event = []) (serviceTmpls : List Service) :
    ∀ (errs : MultiError) (w : W),
      ∃ errs1, updateLoop env event serviceTmpls errs w = some (errs1, w, []) := by
  induction serviceTmpls with
  | nil =>
    intro errs w
    exact ⟨errs, rfl⟩
  | cons service rest ih =>
    intro errs w
    cases hg : env.GetOwnerRepoBranchPath service.SrcPath with
    | mk path perr =>
      cases perr with
      | none =>
        obtain ⟨errs1, h⟩ := ih errs w
        refine ⟨errs1, ?_⟩
        simp only [updateLoop, hg, hnone, affected, h]
        simp
      | some perr1 =>
        obtain ⟨errs1, h⟩ := ih (errs ++ [perr1]) w
        refine ⟨errs1, ?_⟩
        simp only [updateLoop, hg, hnone, affected, multierror.Append, h]
        simp

/-! ## Properties of the error accumulator -/

theorem entries_ErrorOrNil (acc : MultiError) : entries (multierror.ErrorOrNil acc) = acc := by
  cases acc with
  | nil => rfl
  | cons e es => rfl

theorem Append_eq (acc : MultiError) (err : GoError) :
    multierror.Append acc err = acc ++ entries (some err) := by
  cases err with
  | plain e => rfl
  | multi e es => rfl

theorem ErrorOrNil_eq_none (acc : MultiError) : multierror.ErrorOrNil acc = none ↔ acc = [] := by
  cases acc with
  | nil => simp [multierror.ErrorOrNil]
  | cons e es => simp [multierror.ErrorOrNil]

theorem entries_eq_nil (err : Option GoError) : entries err = [] ↔ err = none := by
  cases err with
  | none => simp [entries]
  | some e => cases e <;> simp [entries]

theorem ErrorOrNil_ne_plain (acc : MultiError) (e : Err) :
    multierror.ErrorOrNil acc ≠ some (.plain e) := by
  cases acc with
  | nil => simp [multierror.ErrorOrNil]
  | cons e1 es => simp [multierror.ErrorOrNil]

/-! ## Properties of `updateServiceTemplateByCodehubPushEvent` -/

theorem update_listed (env : Env W) (event : PushEvent) (w w1 : W)
    (serviceTmpls : List Service)
    (hlist : env.ListMaxRevisions
      { Type_ := env.K8SDeployType, Source := env.SourceFromCodeHub } w
        = (.ok serviceTmpls, w1)) :
    ∃ rs errs calls,
      syncEach env ((affectedTemplates env event serviceTmpls).map asSystem) w1 = some rs ∧
      rs.length = (affectedTemplates env event serviceTmpls).length ∧
      updateServiceTemplateByCodehubPushEvent env event w =
        some ⟨multierror.ErrorOrNil errs, lastWorld w1 rs,
          Call.ListMaxRevisions { Type_ := env.K8SDeployType, Source := env.SourceFromCodeHub }
            :: calls⟩ ∧
      syncCalls calls = (affectedTemplates env event serviceTmpls).map asSystem ∧
      ((∀ service ∈ serviceTmpls, (env.GetOwnerRepoBranchPath service.SrcPath).2 = none) →
        errs = failures rs) ∧
      (fileNames event = [] → calls = []) := by
  obtain ⟨rs, errs, calls, h1, h2, h3, h4, h5⟩ := updateLoop_spec env event serviceTmpls [] w1
  refine ⟨rs, errs, calls, h1, h2, ?_, h4, ?_, ?_⟩
  · simp only [updateServiceTemplateByCodehubPushEvent, GetCodehubServiceTemplates, hlist, h3,
      List.singleton_append]
  · intro hall
    simpa using h5 hall
  · intro hnone
    obtain ⟨errs1, h⟩ := updateLoop_no_changes env event hnone serviceTmpls [] w1
    rw [h] at h3
    have h7 := congrArg (fun o => o.map (fun t => t.2.2)) h3
    simpa using h7.symm

theorem update_listError (env : Env W) (event : PushEvent) (w w1 : W) (err : GoError)
    (hlist : env.ListMaxRevisions
      { Type_ := env.K8SDeployType, Source := env.SourceFromCodeHub } w = (.error err, w1)) :
    updateServiceTemplateByCodehubPushEvent env event w =
      some ⟨some err, w1,
        [.ListMaxRevisions { Type_ := env.K8SDeployType, Source := env.SourceFromCodeHub }]⟩ := by
  simp only [updateServiceTemplateByCodehubPushEvent, GetCodehubServiceTemplates, hlist]

theorem update_total (env : Env W) (event : PushEvent) (w : W) :
    ∃ r calls, updateServiceTemplateByCodehubPushEvent env event w = some r ∧
      r.calls = Call.ListMaxRevisions
        { Type_ := env.K8SDeployType, Source := env.SourceFromCodeHub } :: calls ∧
      (fileNames event = [] → calls = []) := by
  cases hlist : env.ListMaxRevisions
      { Type_ := env.K8SDeployType, Source := env.SourceFromCodeHub } w with
  | mk res w1 =>
    cases res with
    | error err => exact ⟨_, [], update_listError env event w w1 err hlist, rfl, fun _ => rfl⟩
    | ok serviceTmpls =>
      obtain ⟨rs, errs, calls, _, _, h3, _, _, h6⟩ :=
        update_listed env event w w1 serviceTmpls hlist
      exact ⟨_, calls, h3, rfl, h6⟩

/-! ## Impact resolution -/

/-- C1: when the store lists the tracked templates and the source location of one of
them parses to the sub-path `path`, `updateServiceTemplateByCodehubPushEvent` returns
and calls `SyncServiceTemplateFromCodehub` for that template exactly when `path` occurs
within at least one path of the flattened changed-file list (per commit: added, then
modified, then removed). -/
theorem sync_attempted_iff_subpath_in_changes (env : Env W) (event : PushEvent) (w w1 : W)
    (serviceTmpls : List Service) (service : Service) (path : String)
    (hlist : env.ListMaxRevisions
      { Type_ := env.K8SDeployType, Source := env.SourceFromCodeHub } w
        = (.ok serviceTmpls, w1))
    (hmem : service ∈ serviceTmpls)
    (hparse : env.GetOwnerRepoBranchPath service.SrcPath = (path, none)) :
    ∃ r, updateServiceTemplateByCodehubPushEvent env event w = some r ∧
      (asSystem service ∈ syncCalls r.calls ↔
        ∃ fileName ∈ flattenedChanges event, path.data <:+: fileName.data) := by
  obtain ⟨rs, errs, calls, _, _, h3, h4, _, _⟩ :=
    update_listed env event w w1 serviceTmpls hlist
  refine ⟨_, h3, ?_⟩
  have hpath : trackedPath env service = path := by simp only [trackedPath, hparse]
  simp only [syncCalls, h4, List.mem_map, affectedTemplates, List.mem_filter]
  rw [← fileNames_eq_flattenedChanges, ← affected_iff]
  constructor
  · rintro ⟨s, ⟨_, haff⟩, heq⟩
    have hsrc0 := congrArg Service.SrcPath heq
    have hsrc : s.SrcPath = service.SrcPath := hsrc0
    have hs : trackedPath env s = path := by
      simp only [trackedPath, hsrc, hparse]
    rw [hs] at haff
    exact haff
  · intro haff
    exact ⟨service, ⟨hmem, by rw [hpath]; exact haff⟩, rfl⟩

/-- C1, worked instance: the template tracking `service-a` is synced on a push whose only
changed file is `service-a/Dockerfile`. -/
theorem sync_attempted_iff_subpath_in_changes_witness :
    (demoEnv (.ok (.push (demoPush ["service-a/Dockerfile"]))) demoTemplates none).ListMaxRevisions
        { Type_ := "k8s", Source := "codehub" } 0 = (.ok demoTemplates, 0) ∧
    demoService "service-a" "service-a" "1a1a" ∈ demoTemplates ∧
    (demoEnv (.ok (.push (demoPush ["service-a/Dockerfile"]))) demoTemplates
        none).GetOwnerRepoBranchPath (demoService "service-a" "service-a" "1a1a").SrcPath
      = ("service-a", none) ∧
    ∃ r, updateServiceTemplateByCodehubPushEvent
        (demoEnv (.ok (.push (demoPush ["service-a/Dockerfile"]))) demoTemplates none)
        (demoPush ["service-a/Dockerfile"]) 0 = some r ∧
      (asSystem (demoService "service-a" "service-a" "1a1a") ∈ syncCalls r.calls ↔
        ∃ fileName ∈ flattenedChanges (demoPush ["service-a/Dockerfile"]),
          ("service-a" : String).data <:+: fileName.data) :=
  ⟨rfl, by decide, rfl,
    sync_attempted_iff_subpath_in_changes
      (demoEnv (.ok (.push (demoPush ["service-a/Dockerfile"]))) demoTemplates none)
      (demoPush ["service-a/Dockerfile"]) 0 0 demoTemplates
      (demoService "service-a" "service-a" "1a1a") "service-a" rfl (by decide) rfl⟩

/-- The example of C1 evaluated: on a push changing only `service-a/Dockerfile` exactly the
template tracking `service-a` is synced, and on a push changing only
`service-b/Dockerfile` it is not (the template tracking `service-b` is). -/
theorem impact_example :
    (updateServiceTemplateByCodehubPushEvent
        (demoEnv (.ok (.push (demoPush ["service-a/Dockerfile"]))) demoTemplates none)
        (demoPush ["service-a/Dockerfile"]) 0).map (fun r => syncCalls r.calls)
      = some [asSystem (demoService "service-a" "service-a" "1a1a")] ∧
    (updateServiceTemplateByCodehubPushEvent
        (demoEnv (.ok (.push (demoPush ["service-b/Dockerfile"]))) demoTemplates none)
        (demoPush ["service-b/Dockerfile"]) 0).map (fun r => syncCalls r.calls)
      = some [asSystem (demoService "service-b" "service-b" "1a1a")] :=
  ⟨rfl, rfl⟩

/-- C10: `updateServiceTemplateByCodehubPushEvent` always returns; when the flattened
changed-file list is empty it calls `SyncServiceTemplateFromCodehub` for no template, and
when the list is non-empty it calls it for every listed template whose derived sub-path
is the empty string. -/
theorem empty_subpath_always_affected (env : Env W) (event : PushEvent) (w : W) :
    ∃ r, updateServiceTemplateByCodehubPushEvent env event w = some r ∧
      (flattenedChanges event = [] → syncCalls r.calls = []) ∧
      (∀ (serviceTmpls : List Service) (w1 : W) (service : Service),
        env.ListMaxRevisions { Type_ := env.K8SDeployType, Source := env.SourceFromCodeHub } w
          = (.ok serviceTmpls, w1) →
        flattenedChanges event ≠ [] → service ∈ serviceTmpls →
        (env.GetOwnerRepoBranchPath service.SrcPath).1 = "" →
        asSystem service ∈ syncCalls r.calls) := by
  obtain ⟨r, calls, hr, hcalls, hnone⟩ := update_total env event w
  refine ⟨r, hr, ?_, ?_⟩
  · intro hempty
    rw [← fileNames_eq_flattenedChanges] at hempty
    rw [hcalls, hnone hempty]
    rfl
  · intro serviceTmpls w1 service hlist hne hmem hpath
    obtain ⟨rs, errs, calls1, _, _, h3, h4, _, _⟩ :=
      update_listed env event w w1 serviceTmpls hlist
    rw [hr] at h3
    cases h3
    simp only [syncCalls, h4, List.mem_map, affectedTemplates, List.mem_filter]
    refine ⟨service, ⟨hmem, ?_⟩, rfl⟩
    rw [affected_iff, fileNames_eq_flattenedChanges]
    cases hfc : flattenedChanges event with
    | nil => exact absurd hfc hne
    | cons fileName rest =>
      refine ⟨fileName, List.mem_cons_self _ _, ?_⟩
      have : trackedPath env service = "" := hpath
      rw [this]
      exact List.nil_infix

/-- C10, worked instance: a push changing `README.md` syncs the template that tracks
the repository root (empty sub-path), and a push without commits syncs none of the
three demo templates. -/
theorem empty_subpath_always_affected_witness :
    (flattenedChanges (demoPush ["README.md"]) ≠ [] ∧
      ((demoEnv (.ok (.push (demoPush ["README.md"]))) [demoService "root" "" "1a1a"]
        none).GetOwnerRepoBranchPath (demoService "root" "" "1a1a").SrcPath).1 = "" ∧
      ∃ r, updateServiceTemplateByCodehubPushEvent
          (demoEnv (.ok (.push (demoPush ["README.md"]))) [demoService "root" "" "1a1a"] none)
          (demoPush ["README.md"]) 0 = some r ∧
        asSystem (demoService "root" "" "1a1a") ∈ syncCalls r.calls) ∧
    (flattenedChanges { Commits := [] } = [] ∧
      ∃ r, updateServiceTemplateByCodehubPushEvent
          (demoEnv (.ok (.push { Commits := [] })) demoTemplates none) { Commits := [] } 0
            = some r ∧
        syncCalls r.calls = []) :=
  ⟨⟨by decide, rfl,
      match empty_subpath_always_affected
        (demoEnv (.ok (.push (demoPush ["README.md"]))) [demoService "root" "" "1a1a"] none)
        (demoPush ["README.md"]) 0 with
      | ⟨r, hr, _, h⟩ =>
        ⟨r, hr, h [demoService "root" "" "1a1a"] 0 (demoService "root" "" "1a1a") rfl
          (by decide) (by decide) rfl⟩⟩,
    ⟨rfl,
      match empty_subpath_always_affected
        (demoEnv (.ok (.push { Commits := [] })) demoTemplates none) { Commits := [] } 0 with
      | ⟨r, hr, h, _⟩ => ⟨r, hr, h rfl⟩⟩⟩

/-! ## Fail-open batching -/

/-- C3: when the store lists the tracked templates and all their source locations parse,
`updateServiceTemplateByCodehubPushEvent` returns, having called
`SyncServiceTemplateFromCodehub` once for every affected template, in template order,
each in the world the previous sync left, whatever the earlier syncs returned (`rs` are
their results); the error it returns is nil when none of them failed and otherwise the
composite whose entries are the errors of the failed syncs, one each, in template order. -/
theorem batch_syncs_all_affected (env : Env W) (event : PushEvent) (w w1 : W)
    (serviceTmpls : List Service)
    (hlist : env.ListMaxRevisions
      { Type_ := env.K8SDeployType, Source := env.SourceFromCodeHub } w
        = (.ok serviceTmpls, w1))
    (hparse : ∀ service ∈ serviceTmpls,
      (env.GetOwnerRepoBranchPath service.SrcPath).2 = none) :
    ∃ rs r,
      syncEach env ((affectedTemplates env event serviceTmpls).map asSystem) w1 = some rs ∧
      rs.length = (affectedTemplates env event serviceTmpls).length ∧
      updateServiceTemplateByCodehubPushEvent env event w = some r ∧
      syncCalls r.calls = (affectedTemplates env event serviceTmpls).map asSystem ∧
      r.err = multierror.ErrorOrNil (failures rs) ∧
      entries r.err = rs.filterMap (fun x => x.err) ∧
      (r.err = none ↔ ∀ x ∈ rs, x.err = none) := by
  obtain ⟨rs, errs, calls, h1, h2, h3, h4, h5, _⟩ :=
    update_listed env event w w1 serviceTmpls hlist
  have herrs : errs = failures rs := h5 hparse
  subst herrs
  refine ⟨rs, _, h1, h2, h3, ?_, rfl, ?_, ?_⟩
  · simp only [syncCalls, h4]
  · simp only [entries_ErrorOrNil, failures]
  · simp only [ErrorOrNil_eq_none, failures, List.filterMap_eq_nil_iff]

/-- C3, worked instance: the three demo templates are all affected and the provider
query fails for the second. -/
theorem batch_syncs_all_affected_witness :
    (demoEnv (.ok (.push (demoPush ["service-a/x", "service-b/y", "service-c/z"])))
        demoTemplates none).ListMaxRevisions { Type_ := "k8s", Source := "codehub" } 0
      = (.ok demoTemplates, 0) ∧
    (∀ service ∈ demoTemplates,
      ((demoEnv (.ok (.push (demoPush ["service-a/x", "service-b/y", "service-c/z"])))
        demoTemplates none).GetOwnerRepoBranchPath service.SrcPath).2 = none) ∧
    ∃ rs r,
      syncEach (demoEnv (.ok (.push (demoPush ["service-a/x", "service-b/y", "service-c/z"])))
          demoTemplates none)
        ((affectedTemplates
          (demoEnv (.ok (.push (demoPush ["service-a/x", "service-b/y", "service-c/z"])))
            demoTemplates none)
          (demoPush ["service-a/x", "service-b/y", "service-c/z"]) demoTemplates).map asSystem)
        0 = some rs ∧
      rs.length = (affectedTemplates
          (demoEnv (.ok (.push (demoPush ["service-a/x", "service-b/y", "service-c/z"])))
            demoTemplates none)
          (demoPush ["service-a/x", "service-b/y", "service-c/z"]) demoTemplates).length ∧
      updateServiceTemplateByCodehubPushEvent
        (demoEnv (.ok (.push (demoPush ["service-a/x", "service-b/y", "service-c/z"])))
          demoTemplates none)
        (demoPush ["service-a/x", "service-b/y", "service-c/z"]) 0 = some r ∧
      syncCalls r.calls = (affectedTemplates
          (demoEnv (.ok (.push (demoPush ["service-a/x", "service-b/y", "service-c/z"])))
            demoTemplates none)
          (demoPush ["service-a/x", "service-b/y", "service-c/z"]) demoTemplates).map asSystem ∧
      r.err = multierror.ErrorOrNil (failures rs) ∧
      entries r.err = rs.filterMap (fun x => x.err) ∧
      (r.err = none ↔ ∀ x ∈ rs, x.err = none) :=
  ⟨rfl, by decide,
    batch_syncs_all_affected
      (demoEnv (.ok (.push (demoPush ["service-a/x", "service-b/y", "service-c/z"])))
        demoTemplates none)
      (demoPush ["service-a/x", "service-b/y", "service-c/z"]) 0 0 demoTemplates rfl
      (by decide)⟩

/-- The example of C3 evaluated: of three affected templates the second fails at the
provider query; all three are synced, the first and third reach the refresh, and the
composite holds exactly the one error. -/
theorem batch_example :
    updateServiceTemplateByCodehubPushEvent
        (demoEnv (.ok (.push (demoPush ["service-a/x", "service-b/y", "service-c/z"])))
          demoTemplates none)
        (demoPush ["service-a/x", "service-b/y", "service-c/z"]) 0
      = some
        { err := some (.multi (.errorString "codehub: latest commit unavailable") [])
          world := 2
          calls :=
            [.ListMaxRevisions { Type_ := "k8s", Source := "codehub" },
             .SyncServiceTemplateFromCodehub
                (asSystem (demoService "service-a" "service-a" "1a1a")),
             .LatestCommit (demoSrcPath "service-a"),
             .fillServiceTmpl "webhook"
                { asSystem (demoService "service-a" "service-a" "1a1a") with
                  Commit := some { SHA := "9f2c", Message := "update manifests" } },
             .SyncServiceTemplateFromCodehub
                (asSystem (demoService "service-b" "service-b" "1a1a")),
             .LatestCommit (demoSrcPath "service-b"),
             .SyncServiceTemplateFromCodehub
                (asSystem (demoService "service-c" "service-c" "1a1a")),
             .LatestCommit (demoSrcPath "service-c"),
             .fillServiceTmpl "webhook"
                { asSystem (demoService "service-c" "service-c" "1a1a") with
                  Commit := some { SHA := "9f2c", Message := "update manifests" } }] } :=
  rfl

/-! ## Idempotent synchronisation -/

/-- C9: a template whose `Source` is not the codehub tag makes
`SyncServiceTemplateFromCodehub` return the wrong-source error at once: no provider
query, no refresh, template and world as they were. When the source is right and the
latest-commit query fails, it returns the error of the query, the world is the one the
query left, the template is as it was, and `fillServiceTmpl` is not called. -/
theorem sync_aborts_before_refresh (env : Env W) (service : Service) (w : W) :
    (service.Source ≠ env.SourceFromCodeHub →
      SyncServiceTemplateFromCodehub env service w =
        some ⟨service, some (.errorString "service template is not from codehub"), w,
          [.SyncServiceTemplateFromCodehub service]⟩) ∧
    (∀ (err : Err) (w1 : W), service.Source = env.SourceFromCodeHub →
      env.LatestCommit service.SrcPath w = (.error err, w1) →
      SyncServiceTemplateFromCodehub env service w =
        some ⟨service, some err, w1,
          [.SyncServiceTemplateFromCodehub service, .LatestCommit service.SrcPath]⟩) :=
  ⟨sync_wrongSource env service w,
    fun err w1 hsrc hq => sync_queryError env service w w1 err hsrc hq⟩

/-- C9, worked instance: the template imported from gitlab, and the codehub template
`service-b` for which the provider query fails. -/
theorem sync_aborts_before_refresh_witness :
    (demoGitlab.Source ≠ (demoEnv (.ok (.other "tag")) [] none).SourceFromCodeHub ∧
      SyncServiceTemplateFromCodehub (demoEnv (.ok (.other "tag")) [] none) demoGitlab 0 =
        some ⟨demoGitlab, some (.errorString "service template is not from codehub"), 0,
          [.SyncServiceTemplateFromCodehub demoGitlab]⟩) ∧
    ((demoService "service-b" "service-b" "1a1a").Source
        = (demoEnv (.ok (.other "tag")) [] none).SourceFromCodeHub ∧
      (demoEnv (.ok (.other "tag")) [] none).LatestCommit
          (demoService "service-b" "service-b" "1a1a").SrcPath 0
        = (.error (.errorString "codehub: latest commit unavailable"), 0) ∧
      SyncServiceTemplateFromCodehub (demoEnv (.ok (.other "tag")) [] none)
          (demoService "service-b" "service-b" "1a1a") 0 =
        some ⟨demoService "service-b" "service-b" "1a1a",
          some (.errorString "codehub: latest commit unavailable"), 0,
          [.SyncServiceTemplateFromCodehub (demoService "service-b" "service-b" "1a1a"),
           .LatestCommit (demoService "service-b" "service-b" "1a1a").SrcPath]⟩) :=
  ⟨⟨by decide,
      (sync_aborts_before_refresh (demoEnv (.ok (.other "tag")) [] none) demoGitlab 0).1
        (by decide)⟩,
    ⟨rfl, rfl,
      (sync_aborts_before_refresh (demoEnv (.ok (.other "tag")) [] none)
        (demoService "service-b" "service-b" "1a1a") 0).2
        (.errorString "codehub: latest commit unavailable") 0 rfl rfl⟩⟩

/-- C2: two calls of `SyncServiceTemplateFromCodehub` in succession on a codehub
template, the second on the template and world the first left, with the latest-commit
query answering the same SHA both times (and `fillServiceTmpl` leaving `Source` and
`Commit` of the in-memory template alone): the second call returns nil after the query
alone, without calling `fillServiceTmpl`; the world is the one the query left, and the
template keeps its revision and its watermark SHA. -/
theorem second_sync_unchanged (env : Env W) (service : Service) (w w1 w2 : W)
    (commit1 commit2 : Commit) (r1 : SyncResult W)
    (hfill : ∀ userName s x,
      ((env.fillServiceTmpl userName s x).1.1).Source = s.Source ∧
      ((env.fillServiceTmpl userName s x).1.1).Commit = s.Commit)
    (hsrc : service.Source = env.SourceFromCodeHub)
    (hq1 : env.LatestCommit service.SrcPath w = (.ok commit1, w1))
    (hfirst : SyncServiceTemplateFromCodehub env service w = some r1)
    (hq2 : env.LatestCommit r1.service.SrcPath r1.world = (.ok commit2, w2))
    (hsame : commit2.SHA = commit1.SHA) :
    ∃ r2, SyncServiceTemplateFromCodehub env r1.service r1.world = some r2 ∧
      r2.err = none ∧
      r2.calls = [.SyncServiceTemplateFromCodehub r1.service,
        .LatestCommit r1.service.SrcPath] ∧
      callsFill r2.calls = false ∧
      r2.world = w2 ∧
      r2.service.Revision = r1.service.Revision ∧
      r2.service.Commit.map (fun c => c.SHA) = r1.service.Commit.map (fun c => c.SHA) := by
  obtain ⟨hsrc1, hcommit1⟩ := sync_service_after env service w w1 commit1 r1 hfill hsrc hq1 hfirst
  refine ⟨_, sync_unchanged env r1.service r1.world w2 commit1 commit2 hsrc1 hcommit1 hq2
    hsame.symm, rfl, rfl, rfl, rfl, rfl, ?_⟩
  simp only [hcommit1, Option.map_some', hsame]

/-- C2, worked instance: `service-a`, stored at commit `1a1a`, is synced twice while the
provider reports `9f2c`; the first call refreshes, the second is a no-op. -/
theorem second_sync_unchanged_witness :
    (∀ userName s x,
      (((demoEnv (.ok (.other "tag")) [] none).fillServiceTmpl userName s x).1.1).Source
        = s.Source ∧
      (((demoEnv (.ok (.other "tag")) [] none).fillServiceTmpl userName s x).1.1).Commit
        = s.Commit) ∧
    SyncServiceTemplateFromCodehub (demoEnv (.ok (.other "tag")) [] none)
        (demoService "service-a" "service-a" "1a1a") 0
      = some
        { service :=
            { demoService "service-a" "service-a" "1a1a" with
              Revision := 4, Commit := some { SHA := "9f2c", Message := "update manifests" } }
          err := none
          world := 1
          calls :=
            [.SyncServiceTemplateFromCodehub (demoService "service-a" "service-a" "1a1a"),
             .LatestCommit (demoSrcPath "service-a"),
             .fillServiceTmpl "webhook"
               { demoService "service-a" "service-a" "1a1a" with
                 Commit := some { SHA := "9f2c", Message := "update manifests" } }] } ∧
    ∃ r2, SyncServiceTemplateFromCodehub (demoEnv (.ok (.other "tag")) [] none)
        { demoService "service-a" "service-a" "1a1a" with
          Revision := 4, Commit := some { SHA := "9f2c", Message := "update manifests" } } 1
        = some r2 ∧
      r2.err = none ∧
      r2.calls =
        [.SyncServiceTemplateFromCodehub
          { demoService "service-a" "service-a" "1a1a" with
            Revision := 4, Commit := some { SHA := "9f2c", Message := "update manifests" } },
         .LatestCommit (demoSrcPath "service-a")] ∧
      callsFill r2.calls = false ∧
      r2.world = 1 ∧
      r2.service.Revision = 4 ∧
      r2.service.Commit.map (fun c => c.SHA) = some "9f2c" :=
  ⟨fun _ _ _ => ⟨rfl, rfl⟩, rfl,
    second_sync_unchanged (demoEnv (.ok (.other "tag")) [] none)
      (demoService "service-a" "service-a" "1a1a") 0 0 1
      { SHA := "9f2c", Message := "update manifests" }
      { SHA := "9f2c", Message := "update manifests" }
      { service :=
          { demoService "service-a" "service-a" "1a1a" with
            Revision := 4, Commit := some { SHA := "9f2c", Message := "update manifests" } }
        err := none
        world := 1
        calls :=
          [.SyncServiceTemplateFromCodehub (demoService "service-a" "service-a" "1a1a"),
           .LatestCommit (demoSrcPath "service-a"),
           .fillServiceTmpl "webhook"
             { demoService "service-a" "service-a" "1a1a" with
               Commit := some { SHA := "9f2c", Message := "update manifests" } }] }
      (fun _ _ _ => ⟨rfl, rfl⟩) rfl rfl rfl rfl rfl⟩

/-! ## Properties of `ProcessCodehubHook` -/

theorem process_rejected (env : Env W) (payload : Payload) (req : Request)
    (requestID : String) (w : W)
    (hreject : env.GetHookSecret w ≠ "" ∧ req.Header "X-Codehub-Token" ≠ env.GetHookSecret w) :
    ProcessCodehubHook env payload req requestID w =
      some ⟨some (.plain (.errorString "token is illegal")), w, []⟩ := by
  simp only [ProcessCodehubHook]
  rw [if_pos hreject]

theorem process_parseError (env : Env W) (payload : Payload) (req : Request)
    (requestID : String) (w : W) (perr : ParseHookError)
    (hpass : ¬ (env.GetHookSecret w ≠ "" ∧
      req.Header "X-Codehub-Token" ≠ env.GetHookSecret w))
    (hparse : env.ParseHook (env.HookEventType req) payload = .error perr) :
    ProcessCodehubHook env payload req requestID w =
      some ⟨none, w, [.ParseHook (env.HookEventType req) payload]⟩ := by
  simp only [ProcessCodehubHook]
  rw [if_neg hpass]
  simp only [hparse]

theorem process_push (env : Env W) (payload : Payload) (req : Request)
    (requestID : String) (w : W) (pushEvent : PushEvent) (u : HookResult W)
    (hpass : ¬ (env.GetHookSecret w ≠ "" ∧
      req.Header "X-Codehub-Token" ≠ env.GetHookSecret w))
    (hparse : env.ParseHook (env.HookEventType req) payload = .ok (.push pushEvent))
    (hu : updateServiceTemplateByCodehubPushEvent env pushEvent
      (upsertWebhookUser env req pushEvent w).1 = some u) :
    ProcessCodehubHook env payload req requestID w =
      some ⟨multierror.ErrorOrNil (entries u.err ++ entries
          (env.TriggerWorkflowByCodehubEvent (.push pushEvent)
            (req.Header "X-Forwarded-Proto" ++ "://" ++ req.Header "X-Forwarded-Host")
            requestID u.world).1),
        (env.TriggerWorkflowByCodehubEvent (.push pushEvent)
            (req.Header "X-Forwarded-Proto" ++ "://" ++ req.Header "X-Forwarded-Host")
            requestID u.world).2,
        (Call.ParseHook (env.HookEventType req) payload ::
            ((upsertWebhookUser env req pushEvent w).2 ++ u.calls)) ++
          [.TriggerWorkflowByCodehubEvent (.push pushEvent)
            (req.Header "X-Forwarded-Proto" ++ "://" ++ req.Header "X-Forwarded-Host")
            requestID]⟩ := by
  simp only [ProcessCodehubHook]
  rw [if_neg hpass]
  simp only [hparse, processEvent, hu]
  cases hue : u.err with
  | none =>
    cases ht : env.TriggerWorkflowByCodehubEvent (.push pushEvent)
        (req.Header "X-Forwarded-Proto" ++ "://" ++ req.Header "X-Forwarded-Host")
        requestID u.world with
    | mk terr w2 =>
      cases terr with
      | none => simp only [ht, entries, List.append_nil]
      | some e =>
        simp only [ht, Append_eq, List.nil_append]
        rfl
  | some ue =>
    cases ht : env.TriggerWorkflowByCodehubEvent (.push pushEvent)
        (req.Header "X-Forwarded-Proto" ++ "://" ++ req.Header "X-Forwarded-Host")
        requestID u.world with
    | mk terr w2 =>
      cases terr with
      | none => simp only [ht, Append_eq, entries, List.nil_append, List.append_nil]
      | some e => simp only [ht, Append_eq, List.nil_append]

theorem process_other (env : Env W) (payload : Payload) (req : Request)
    (requestID : String) (w : W) (kind : String)
    (hpass : ¬ (env.GetHookSecret w ≠ "" ∧
      req.Header "X-Codehub-Token" ≠ env.GetHookSecret w))
    (hparse : env.ParseHook (env.HookEventType req) payload = .ok (.other kind)) :
    ProcessCodehubHook env payload req requestID w =
      some ⟨multierror.ErrorOrNil (entries
          (env.TriggerWorkflowByCodehubEvent (.other kind)
            (req.Header "X-Forwarded-Proto" ++ "://" ++ req.Header "X-Forwarded-Host")
            requestID w).1),
        (env.TriggerWorkflowByCodehubEvent (.other kind)
            (req.Header "X-Forwarded-Proto" ++ "://" ++ req.Header "X-Forwarded-Host")
            requestID w).2,
        [.ParseHook (env.HookEventType req) payload,
         .TriggerWorkflowByCodehubEvent (.other kind)
            (req.Header "X-Forwarded-Proto" ++ "://" ++ req.Header "X-Forwarded-Host")
            requestID]⟩ := by
  simp only [ProcessCodehubHook]
  rw [if_neg hpass]
  simp only [hparse, processEvent]
  cases ht : env.TriggerWorkflowByCodehubEvent (.other kind)
      (req.Header "X-Forwarded-Proto" ++ "://" ++ req.Header "X-Forwarded-Host")
      requestID w with
  | mk terr w2 =>
    cases terr with
    | none => simp only [ht, entries, List.nil_append, List.singleton_append]
    | some e => simp only [ht, Append_eq, List.nil_append, List.singleton_append]

theorem process_passed_not_plain (env : Env W) (payload : Payload) (req : Request)
    (requestID : String) (w : W)
    (hpass : ¬ (env.GetHookSecret w ≠ "" ∧
      req.Header "X-Codehub-Token" ≠ env.GetHookSecret w)) :
    ∃ r, ProcessCodehubHook env payload req requestID w = some r ∧
      ∀ e, r.err ≠ some (.plain e) := by
  cases hparse : env.ParseHook (env.HookEventType req) payload with
  | error perr =>
    exact ⟨_, process_parseError env payload req requestID w perr hpass hparse,
      fun e h => by cases h⟩
  | ok event =>
    cases event with
    | push pushEvent =>
      obtain ⟨u, _, hu, _, _⟩ :=
        update_total env pushEvent (upsertWebhookUser env req pushEvent w).1
      exact ⟨_, process_push env payload req requestID w pushEvent u hpass hparse hu,
        fun e => ErrorOrNil_ne_plain _ e⟩
    | other kind =>
      exact ⟨_, process_other env payload req requestID w kind hpass hparse,
        fun e => ErrorOrNil_ne_plain _ e⟩

/-! ## The secret gate -/

/-- C5: `ProcessCodehubHook` always returns; its error is the plain error
`token is illegal` exactly when the configured secret is non-empty and differs from the
`X-Codehub-Token` header, and then the world is untouched and no collaborator was
called; with an empty configured secret the request is never rejected. -/
theorem hook_secret_gate (env : Env W) (payload : Payload) (req : Request)
    (requestID : String) (w : W) :
    ∃ r, ProcessCodehubHook env payload req requestID w = some r ∧
      (r.err = some (.plain (.errorString "token is illegal")) ↔
        (env.GetHookSecret w ≠ "" ∧ req.Header "X-Codehub-Token" ≠ env.GetHookSecret w)) ∧
      ((env.GetHookSecret w ≠ "" ∧ req.Header "X-Codehub-Token" ≠ env.GetHookSecret w) →
        r.world = w ∧ r.calls = []) ∧
      (env.GetHookSecret w = "" → r.err ≠ some (.plain (.errorString "token is illegal"))) := by
  by_cases hreject :
      env.GetHookSecret w ≠ "" ∧ req.Header "X-Codehub-Token" ≠ env.GetHookSecret w
  · refine ⟨_, process_rejected env payload req requestID w hreject, ?_, ?_, ?_⟩
    · exact ⟨fun _ => hreject, fun _ => rfl⟩
    · exact fun _ => ⟨rfl, rfl⟩
    · exact fun hempty => absurd hempty hreject.1
  · obtain ⟨r, hr, hplain⟩ := process_passed_not_plain env payload req requestID w hreject
    refine ⟨r, hr, ?_, ?_, ?_⟩
    · exact ⟨fun h => absurd h (hplain _), fun h => absurd h hreject⟩
    · exact fun h => absurd h hreject
    · exact fun _ => hplain _

/-- C5, worked instance: with the secret `s3cret` configured a request carrying the
token `guess` is rejected before anything else happens, and with no secret configured
the same request is not rejected. -/
theorem hook_secret_gate_witness :
    (((demoEnv (.ok (.push (demoPush ["service-a/x"]))) demoTemplates none).GetHookSecret 0
          ≠ "" ∧
        (demoRequest "guess").Header "X-Codehub-Token" ≠
          (demoEnv (.ok (.push (demoPush ["service-a/x"]))) demoTemplates none).GetHookSecret
            0) ∧
      ∃ r, ProcessCodehubHook
          (demoEnv (.ok (.push (demoPush ["service-a/x"]))) demoTemplates none)
          [] (demoRequest "guess") "req-1" 0 = some r ∧
        r.err = some (.plain (.errorString "token is illegal")) ∧ r.world = 0 ∧ r.calls = []) ∧
    ((demoOpenEnv (.ok (.push (demoPush ["service-a/x"]))) demoTemplates none).GetHookSecret 0
        = "" ∧
      ∃ r, ProcessCodehubHook
          (demoOpenEnv (.ok (.push (demoPush ["service-a/x"]))) demoTemplates none)
          [] (demoRequest "guess") "req-1" 0 = some r ∧
        r.err ≠ some (.plain (.errorString "token is illegal"))) :=
  ⟨⟨by decide,
      match hook_secret_gate
        (demoEnv (.ok (.push (demoPush ["service-a/x"]))) demoTemplates none)
        [] (demoRequest "guess") "req-1" 0 with
      | ⟨r, hr, h1, h2, _⟩ =>
        ⟨r, hr, h1.2 (by decide), (h2 (by decide)).1, (h2 (by decide)).2⟩⟩,
    ⟨rfl,
      match hook_secret_gate
        (demoOpenEnv (.ok (.push (demoPush ["service-a/x"]))) demoTemplates none)
        [] (demoRequest "guess") "req-1" 0 with
      | ⟨r, hr, _, _, h3⟩ => ⟨r, hr, h3 rfl⟩⟩⟩

/-! ## Composition of the two phases -/

/-- C4: for a request that passes the secret check and parses as a push event,
`ProcessCodehubHook` returns; with `u` the result of the synchronisation batch and the
trigger run in the world the batch left, the returned error is nil exactly when both the
batch and the trigger returned nil, and otherwise it is the composite whose entries are
the entries of the batch error, in order, followed by those of the trigger error. -/
theorem hook_result_composes_phases (env : Env W) (payload : Payload) (req : Request)
    (requestID : String) (w : W) (pushEvent : PushEvent)
    (hpass : ¬ (env.GetHookSecret w ≠ "" ∧
      req.Header "X-Codehub-Token" ≠ env.GetHookSecret w))
    (hparse : env.ParseHook (env.HookEventType req) payload = .ok (.push pushEvent)) :
    ∃ u r,
      updateServiceTemplateByCodehubPushEvent env pushEvent
        (upsertWebhookUser env req pushEvent w).1 = some u ∧
      ProcessCodehubHook env payload req requestID w = some r ∧
      (r.err = none ↔
        u.err = none ∧
        (env.TriggerWorkflowByCodehubEvent (.push pushEvent)
          (req.Header "X-Forwarded-Proto" ++ "://" ++ req.Header "X-Forwarded-Host")
          requestID u.world).1 = none) ∧
      r.err = multierror.ErrorOrNil (entries u.err ++ entries
        (env.TriggerWorkflowByCodehubEvent (.push pushEvent)
          (req.Header "X-Forwarded-Proto" ++ "://" ++ req.Header "X-Forwarded-Host")
          requestID u.world).1) ∧
      entries r.err = entries u.err ++ entries
        (env.TriggerWorkflowByCodehubEvent (.push pushEvent)
          (req.Header "X-Forwarded-Proto" ++ "://" ++ req.Header "X-Forwarded-Host")
          requestID u.world).1 := by
  obtain ⟨u, _, hu, _, _⟩ :=
    update_total env pushEvent (upsertWebhookUser env req pushEvent w).1
  refine ⟨u, _, hu, process_push env payload req requestID w pushEvent u hpass hparse hu,
    ?_, rfl, ?_⟩
  · simp only [ErrorOrNil_eq_none, List.append_eq_nil, entries_eq_nil]
  · simp only [entries_ErrorOrNil]

/-- C4, worked instance: the batch fails for `service-b` and the trigger fails too; both
errors are in the composite, the batch error first. -/
theorem hook_result_composes_phases_witness :
    ¬ ((demoEnv (.ok (.push (demoPush ["service-b/y"]))) demoTemplates
          (some (.plain (.errorString "no workflow matched")))).GetHookSecret 0 ≠ "" ∧
      (demoRequest "s3cret").Header "X-Codehub-Token" ≠
        (demoEnv (.ok (.push (demoPush ["service-b/y"]))) demoTemplates
          (some (.plain (.errorString "no workflow matched")))).GetHookSecret 0) ∧
    (demoEnv (.ok (.push (demoPush ["service-b/y"]))) demoTemplates
        (some (.plain (.errorString "no workflow matched")))).ParseHook
      ((demoEnv (.ok (.push (demoPush ["service-b/y"]))) demoTemplates
        (some (.plain (.errorString "no workflow matched")))).HookEventType
          (demoRequest "s3cret")) []
      = .ok (.push (demoPush ["service-b/y"])) ∧
    (ProcessCodehubHook (demoEnv (.ok (.push (demoPush ["service-b/y"]))) demoTemplates
        (some (.plain (.errorString "no workflow matched"))))
        [] (demoRequest "s3cret") "req-1" 0).map (fun r => r.err)
      = some (some (.multi (.errorString "codehub: latest commit unavailable")
          [.errorString "no workflow matched"])) ∧
    ∃ u r,
      updateServiceTemplateByCodehubPushEvent
        (demoEnv (.ok (.push (demoPush ["service-b/y"]))) demoTemplates
          (some (.plain (.errorString "no workflow matched"))))
        (demoPush ["service-b/y"])
        (upsertWebhookUser (demoEnv (.ok (.push (demoPush ["service-b/y"]))) demoTemplates
          (some (.plain (.errorString "no workflow matched"))))
          (demoRequest "s3cret") (demoPush ["service-b/y"]) 0).1 = some u ∧
      ProcessCodehubHook (demoEnv (.ok (.push (demoPush ["service-b/y"]))) demoTemplates
        (some (.plain (.errorString "no workflow matched"))))
        [] (demoRequest "s3cret") "req-1" 0 = some r ∧
      (r.err = none ↔
        u.err = none ∧
        ((demoEnv (.ok (.push (demoPush ["service-b/y"]))) demoTemplates
          (some (.plain (.errorString "no workflow matched")))).TriggerWorkflowByCodehubEvent
            (.push (demoPush ["service-b/y"]))
            ((demoRequest "s3cret").Header "X-Forwarded-Proto" ++ "://" ++
              (demoRequest "s3cret").Header "X-Forwarded-Host")
            "req-1" u.world).1 = none) ∧
      r.err = multierror.ErrorOrNil (entries u.err ++ entries
        ((demoEnv (.ok (.push (demoPush ["service-b/y"]))) demoTemplates
          (some (.plain (.errorString "no workflow matched")))).TriggerWorkflowByCodehubEvent
            (.push (demoPush ["service-b/y"]))
            ((demoRequest "s3cret").Header "X-Forwarded-Proto" ++ "://" ++
              (demoRequest "s3cret").Header "X-Forwarded-Host")
            "req-1" u.world).1) ∧
      entries r.err = entries u.err ++ entries
        ((demoEnv (.ok (.push (demoPush ["service-b/y"]))) demoTemplates
          (some (.plain (.errorString "no workflow matched")))).TriggerWorkflowByCodehubEvent
            (.push (demoPush ["service-b/y"]))
            ((demoRequest "s3cret").Header "X-Forwarded-Proto" ++ "://" ++
              (demoRequest "s3cret").Header "X-Forwarded-Host")
            "req-1" u.world).1 :=
  ⟨by decide, rfl, rfl,
    hook_result_composes_phases
      (demoEnv (.ok (.push (demoPush ["service-b/y"]))) demoTemplates
        (some (.plain (.errorString "no workflow matched"))))
      [] (demoRequest "s3cret") "req-1" 0 (demoPush ["service-b/y"]) (by decide) rfl⟩

/-! ## Pushes without commits -/

/-- C6, as the code has it: for a request that passes the secret check and parses as a
push event with no commits, `ProcessCodehubHook` returns having made exactly three
collaborator calls, in this order: the parse, the template listing of
`updateServiceTemplateByCodehubPushEvent`, and the workflow trigger. No webhook user is
upserted and no template is synced, but the synchronisation sub-flow does run. -/
theorem empty_push_lists_templates_syncs_none (env : Env W) (payload : Payload)
    (req : Request) (requestID : String) (w : W) (pushEvent : PushEvent)
    (hpass : ¬ (env.GetHookSecret w ≠ "" ∧
      req.Header "X-Codehub-Token" ≠ env.GetHookSecret w))
    (hparse : env.ParseHook (env.HookEventType req) payload = .ok (.push pushEvent))
    (hempty : pushEvent.Commits = []) :
    ∃ r, ProcessCodehubHook env payload req requestID w = some r ∧
      r.calls =
        [.ParseHook (env.HookEventType req) payload,
         .ListMaxRevisions { Type_ := env.K8SDeployType, Source := env.SourceFromCodeHub },
         .TriggerWorkflowByCodehubEvent (.push pushEvent)
            (req.Header "X-Forwarded-Proto" ++ "://" ++ req.Header "X-Forwarded-Host")
            requestID] := by
  have hups : upsertWebhookUser env req pushEvent w = (w, []) := by
    simp only [upsertWebhookUser, hempty]
  have hfiles : fileNames pushEvent = [] := by
    simp only [fileNames, hempty, List.foldl_nil]
  obtain ⟨u, calls, hu, hcalls, hnone⟩ :=
    update_total env pushEvent (upsertWebhookUser env req pushEvent w).1
  refine ⟨_, process_push env payload req requestID w pushEvent u hpass hparse hu, ?_⟩
  simp only [hups, hcalls, hnone hfiles, List.nil_append, List.cons_append]

/-- C6, worked instance: an empty push against the three demo templates. -/
theorem empty_push_lists_templates_syncs_none_witness :
    ¬ ((demoEnv (.ok (.push { Commits := [] })) demoTemplates none).GetHookSecret 0 ≠ "" ∧
      (demoRequest "s3cret").Header "X-Codehub-Token" ≠
        (demoEnv (.ok (.push { Commits := [] })) demoTemplates none).GetHookSecret 0) ∧
    (demoEnv (.ok (.push { Commits := [] })) demoTemplates none).ParseHook
      ((demoEnv (.ok (.push { Commits := [] })) demoTemplates none).HookEventType
        (demoRequest "s3cret")) []
      = .ok (.push { Commits := [] }) ∧
    (({ Commits := [] } : PushEvent).Commits = []) ∧
    ∃ r, ProcessCodehubHook (demoEnv (.ok (.push { Commits := [] })) demoTemplates none)
        [] (demoRequest "s3cret") "req-1" 0 = some r ∧
      r.calls =
        [.ParseHook ((demoEnv (.ok (.push { Commits := [] })) demoTemplates none).HookEventType
            (demoRequest "s3cret")) [],
         .ListMaxRevisions
            { Type_ := (demoEnv (.ok (.push { Commits := [] })) demoTemplates none).K8SDeployType
              Source :=
                (demoEnv (.ok (.push { Commits := [] })) demoTemplates none).SourceFromCodeHub },
         .TriggerWorkflowByCodehubEvent (.push { Commits := [] })
            ((demoRequest "s3cret").Header "X-Forwarded-Proto" ++ "://" ++
              (demoRequest "s3cret").Header "X-Forwarded-Host")
            "req-1"] :=
  ⟨by decide, rfl, rfl,
    empty_push_lists_templates_syncs_none
      (demoEnv (.ok (.push { Commits := [] })) demoTemplates none)
      [] (demoRequest "s3cret") "req-1" 0 { Commits := [] } (by decide) rfl rfl⟩

/-- C6 as stated fails: on a push event with no commits the synchronisation sub-flow is
invoked. Here it lists the templates, parses the stored location of the one listed, and
its parse error is what `ProcessCodehubHook` returns. -/
theorem empty_push_runs_sync_subflow :
    (({ Commits := [] } : PushEvent).Commits = []) ∧
    ProcessCodehubHook (demoEnv (.ok (.push { Commits := [] })) [demoMalformed] none)
        [] (demoRequest "s3cret") "req-1" 0
      = some
        { err := some (.multi (.errorString "url is illegal") [])
          world := 0
          calls :=
            [.ParseHook "Push Hook" [],
             .ListMaxRevisions { Type_ := "k8s", Source := "codehub" },
             .TriggerWorkflowByCodehubEvent (.push { Commits := [] })
                "https://zadig.example.com" "req-1"] } ∧
    Call.ListMaxRevisions { Type_ := "k8s", Source := "codehub" } ∈
      [Call.ParseHook "Push Hook" [],
       .ListMaxRevisions { Type_ := "k8s", Source := "codehub" },
       .TriggerWorkflowByCodehubEvent (.push { Commits := [] })
          "https://zadig.example.com" "req-1"] :=
  ⟨rfl, rfl, by decide⟩

/-! ## Events that fail to parse -/

/-- C8, as the code has it: for a request that passes the secret check, whatever error
`ParseHook` returns (an unrecognised event type or a malformed payload of a recognised
type), `ProcessCodehubHook` returns nil, leaves the world as it was and calls no
collaborator after the parse. -/
theorem parse_failure_returns_nil (env : Env W) (payload : Payload) (req : Request)
    (requestID : String) (w : W) (perr : ParseHookError)
    (hpass : ¬ (env.GetHookSecret w ≠ "" ∧
      req.Header "X-Codehub-Token" ≠ env.GetHookSecret w))
    (hparse : env.ParseHook (env.HookEventType req) payload = .error perr) :
    ProcessCodehubHook env payload req requestID w =
      some ⟨none, w, [.ParseHook (env.HookEventType req) payload]⟩ :=
  process_parseError env payload req requestID w perr hpass hparse

/-- C8, worked instance: an event type outside the recognised set. -/
theorem parse_failure_returns_nil_witness :
    ¬ ((demoEnv (.error (.unrecognizedEventType "Note Hook")) demoTemplates none).GetHookSecret 0
          ≠ "" ∧
      (demoRequest "s3cret").Header "X-Codehub-Token" ≠
        (demoEnv (.error (.unrecognizedEventType "Note Hook")) demoTemplates none).GetHookSecret
          0) ∧
    (demoEnv (.error (.unrecognizedEventType "Note Hook")) demoTemplates none).ParseHook
      ((demoEnv (.error (.unrecognizedEventType "Note Hook")) demoTemplates none).HookEventType
        (demoRequest "s3cret")) []
      = .error (.unrecognizedEventType "Note Hook") ∧
    ProcessCodehubHook (demoEnv (.error (.unrecognizedEventType "Note Hook")) demoTemplates none)
        [] (demoRequest "s3cret") "req-1" 0 =
      some ⟨none, 0,
        [.ParseHook
          ((demoEnv (.error (.unrecognizedEventType "Note Hook")) demoTemplates
            none).HookEventType (demoRequest "s3cret")) []]⟩ :=
  ⟨by decide, rfl,
    parse_failure_returns_nil
      (demoEnv (.error (.unrecognizedEventType "Note Hook")) demoTemplates none)
      [] (demoRequest "s3cret") "req-1" 0 (.unrecognizedEventType "Note Hook") (by decide) rfl⟩

/-- C8 as stated fails: a push payload that does not parse is a failure on a recognised
event type, and `ProcessCodehubHook` returns nil for it all the same. -/
theorem malformed_payload_returns_nil :
    (demoEnv (.error (.malformedPayload "Push Hook" "unexpected end of JSON input"))
        demoTemplates none).ParseHook "Push Hook" [123]
      = .error (.malformedPayload "Push Hook" "unexpected end of JSON input") ∧
    (∀ eventType, ParseHookError.malformedPayload "Push Hook" "unexpected end of JSON input"
      ≠ .unrecognizedEventType eventType) ∧
    ProcessCodehubHook
        (demoEnv (.error (.malformedPayload "Push Hook" "unexpected end of JSON input"))
          demoTemplates none)
        [123] (demoRequest "s3cret") "req-1" 0
      = some ⟨none, 0, [.ParseHook "Push Hook" [123]]⟩ :=
  ⟨rfl, fun _ h => ParseHookError.noConfusion h, rfl⟩

/-! ## Templates whose stored location does not parse -/

/-- C7, the code at the failing input: the stored location of `orphan` does not parse
(the parser returns the empty sub-path with its error) and the push changes
`service-a/Dockerfile`. The parse error is recorded and `service-a` is still processed,
but `orphan` is not excluded: `SyncServiceTemplateFromCodehub` is called for it and its
failure adds a second entry for the same template. -/
theorem malformed_location_still_synced :
    updateServiceTemplateByCodehubPushEvent
        (demoEnv (.ok (.push (demoPush ["service-a/Dockerfile"])))
          [demoMalformed, demoService "service-a" "service-a" "9f2c"] none)
        (demoPush ["service-a/Dockerfile"]) 0
      = some
        { err := some (.multi (.errorString "url is illegal")
            [.errorString "codehub: latest commit unavailable"])
          world := 0
          calls :=
            [.ListMaxRevisions { Type_ := "k8s", Source := "codehub" },
             .SyncServiceTemplateFromCodehub (asSystem demoMalformed),
             .LatestCommit "not-a-location",
             .SyncServiceTemplateFromCodehub
                (asSystem (demoService "service-a" "service-a" "9f2c")),
             .LatestCommit (demoSrcPath "service-a")] } :=
  rfl

/-- Whatever sub-path the parser returns next to its error, a template whose stored
location fails to parse is not excluded: a push that adds a file named like that
sub-path makes `updateServiceTemplateByCodehubPushEvent` sync it. -/
theorem unparsed_template_not_excluded (env : Env W) (w w1 : W)
    (serviceTmpls : List Service) (service : Service) (path : String) (err : Err)
    (author : Author)
    (hlist : env.ListMaxRevisions
      { Type_ := env.K8SDeployType, Source := env.SourceFromCodeHub } w
        = (.ok serviceTmpls, w1))
    (hmem : service ∈ serviceTmpls)
    (hparse : env.GetOwnerRepoBranchPath service.SrcPath = (path, some err)) :
    ∃ r, updateServiceTemplateByCodehubPushEvent env
        { Commits := [{ Author := author, Added := [path], Modified := [], Removed := [] }] } w
          = some r ∧
      asSystem service ∈ syncCalls r.calls := by
  obtain ⟨rs, errs, calls, _, _, h3, h4, _, _⟩ :=
    update_listed env
      { Commits := [{ Author := author, Added := [path], Modified := [], Removed := [] }] }
      w w1 serviceTmpls hlist
  refine ⟨_, h3, ?_⟩
  simp only [syncCalls, h4, List.mem_map, affectedTemplates, List.mem_filter]
  have hpath : trackedPath env service = path := by simp only [trackedPath, hparse]
  refine ⟨service, ⟨hmem, ?_⟩, rfl⟩
  rw [affected_iff, hpath]
  refine ⟨path, ?_, List.infix_refl _⟩
  simp [fileNames]

end Codehub
